import Mathlib

/-!
Verification development for the `genai-toolbox` repository.

Shallow embedding of:
  * the JSON-RPC dispatcher of `py_toolbox/main.py` (`mcp_handle_request`
    and the `mcp-serve` stdin loop),
  * the FastAPI route handlers of `mcp_hub/api/routes.py` over an explicit
    in-memory table state (SQLAlchemy session ⇒ explicit state passing),
  * the LangChain SDK utilities of
    `sdks/langchain/src/toolbox_langchain_sdk/utils.py`
    (`_parse_type`, `_schema_to_model`, `_invoke_tool`,
    `_convert_none_to_empty_string`).

JSON values are modelled by the inductive `JValue`; Python dicts appear as
association lists in insertion order, which is how both `json.loads` and
Python's `dict` iterate them.
-/

/-- A JSON value, as produced by Python's `json.loads`.  Numbers are modelled
by `Int`: no claim in scope depends on fractional numbers. -/
inductive JValue where
  | null
  | bool (b : Bool)
  | num (n : Int)
  | str (s : String)
  | arr (xs : List JValue)
  | obj (fields : List (String × JValue))

namespace JValue

/-- Python `d.get(k)` on a dict rendered as an association list: the first
binding wins (Python dicts have unique keys, so assoc-list order is faithful). -/
def dlookup (fields : List (String × JValue)) (k : String) : Option JValue :=
  (fields.find? (fun kv => kv.1 == k)).map (fun kv => kv.2)

/-- Python `k in d`. -/
def hasKey (fields : List (String × JValue)) (k : String) : Bool :=
  fields.any (fun kv => kv.1 == k)

/-- Python `d.get(k, default)`. -/
def dlookupD (fields : List (String × JValue)) (k : String) (dflt : JValue) : JValue :=
  (dlookup fields k).getD dflt

end JValue

namespace PyToolbox

open JValue

/-! ### JSON-RPC error codes (py_toolbox/main.py, lines 180-184) -/

def JSONRPC_PARSE_ERROR : Int := -32700
def JSONRPC_INVALID_REQUEST : Int := -32600
def JSONRPC_METHOD_NOT_FOUND : Int := -32601
def JSONRPC_INVALID_PARAMS : Int := -32602
def JSONRPC_INTERNAL_ERROR : Int := -32603

/-- A JSON-RPC response object, mirroring `create_jsonrpc_success_response`
and `create_jsonrpc_error_response` in `py_toolbox/main.py`.  A Python `None`
id serialises as JSON `null`, so the id is a `JValue` with `.null` for the
missing/None case. -/
inductive Response where
  | success (id : JValue) (result : JValue)
  | error (id : JValue) (code : Int) (message : String) (data : Option JValue)

/-- Outcome of calling a tool's `invoke` method: either a JSON result, or one
of the exception classes that `mcp_handle_request` distinguishes
(`ConnectionError`, `ValueError`, anything else). -/
inductive InvokeOutcome where
  | ok (result : JValue)
  | connectionError (msg : String)
  | valueError (msg : String)
  | otherError (exnType : String) (msg : String)

/-- The slice of a tool object that `mcp_handle_request` uses: its MCP
manifest fields (`get_mcp_manifest`), the SDK manifest's `auth_required`
list (`get_manifest().auth_required`), the `is_authorized` method and the
`invoke` method. -/
structure ToolModel where
  mcp_name : String
  mcp_description : String
  mcp_input_schema : JValue
  manifest_auth_required : List String
  is_authorized : List String → Bool
  invoke : List (String × JValue) → InvokeOutcome

/-- `initialized_tools`: a Python dict mapping tool name to tool instance. -/
abbrev ToolTable := List (String × ToolModel)

def lookupTool (tools : ToolTable) (name : String) : Option ToolModel :=
  (tools.find? (fun kv => kv.1 == name)).map (fun kv => kv.2)

/-- `SQLiteSQLTool.is_authorized` (sqlite_sql.py, lines 86-91):
returns True when `auth_required` is empty, otherwise True iff some required
service is among the verified ones. -/
def sqlite_is_authorized (auth_required verified : List String) : Bool :=
  if auth_required.isEmpty then true
  else auth_required.any (fun req => verified.contains req)

/-- `get_mcp_manifest().model_dump(exclude_none=True)` with the name fixup of
`get_tool_description`: when the manifest's own name is empty it is replaced
by the registry name before dumping. -/
def mcpManifestDump (tool : ToolModel) (registryName : String) : JValue :=
  .obj [("name", .str (if tool.mcp_name = "" then registryName else tool.mcp_name)),
        ("description", .str tool.mcp_description),
        ("input_schema", tool.mcp_input_schema)]

/-- The `list_tools` result entry for one tool (name + manifest description). -/
def listToolsEntry (kv : String × ToolModel) : JValue :=
  .obj [("name", .str kv.1), ("description", .str kv.2.mcp_description)]

/-- Python's f-string rendering of a JSON value inside an error message
(only the string case matters to the claims in scope). -/
def jvalueText : JValue → String
  | .str s => s
  | .null => "None"
  | .bool b => cond b "True" "False"
  | .num n => toString n
  | .arr _ => "<list>"
  | .obj _ => "<dict>"

/-- The `try: result = tool_instance.invoke(...)` block of `invoke_tool` with
its `except ConnectionError` / `except ValueError` / `except Exception` arms
(py_toolbox/main.py, lines 301-309). -/
def runInvoke (request_id : JValue) (tool_name : String) : InvokeOutcome → Response
  | .ok result => .success request_id result
  | .connectionError m =>
      .error request_id JSONRPC_INTERNAL_ERROR
        ("Connection error for tool '" ++ tool_name ++ "': " ++ m)
        (some (.obj [("tool_name", .str tool_name), ("type", .str "ConnectionError")]))
  | .valueError m =>
      .error request_id JSONRPC_INVALID_PARAMS
        ("Invalid parameters or value for tool '" ++ tool_name ++ "': " ++ m)
        (some (.obj [("tool_name", .str tool_name), ("type", .str "ValueError")]))
  | .otherError ty m =>
      .error request_id JSONRPC_INTERNAL_ERROR
        ("Error during tool '" ++ tool_name ++ "' execution: " ++ m)
        (some (.obj [("tool_name", .str tool_name), ("type", .str ty)]))

/-- The method dispatch of `mcp_handle_request` once the method is known to be
a string (py_toolbox/main.py, lines 225-313). -/
def mcpDispatch (tools : ToolTable) (request_id : JValue) (params : JValue)
    (m : String) : Response :=
  if m = "list_tools" then
    .success request_id (.arr (tools.map listToolsEntry))
  else if m = "get_tool_description" then
    match params with
    | .obj pf =>
      match dlookup pf "tool_name" with
      | some (.str tool_name) =>
        match lookupTool tools tool_name with
        | none =>
          .error request_id JSONRPC_METHOD_NOT_FOUND
            ("Tool '" ++ tool_name ++ "' not found.") none
        | some tool =>
          .success request_id (mcpManifestDump tool tool_name)
      | _ =>
        .error request_id JSONRPC_INVALID_PARAMS
          "Invalid params: 'tool_name' (string) is required." none
    | _ =>
      .error request_id JSONRPC_INVALID_PARAMS
        "Invalid params: 'tool_name' (string) is required." none
  else if m = "invoke_tool" then
    match params with
    | .obj pf =>
      let tool_name_v := dlookup pf "tool_name"
      let actual_tool_params : JValue :=
        match dlookup pf "invoke_params" with
        | some v => v
        | none => dlookupD pf "tool_params" (.obj [])
      match tool_name_v with
      | some (.str tool_name) =>
        match actual_tool_params with
        | .obj args =>
          match lookupTool tools tool_name with
          | none =>
            .error request_id JSONRPC_METHOD_NOT_FOUND
              ("Tool '" ++ tool_name ++ "' not found.") none
          | some tool =>
            if tool.manifest_auth_required ≠ [] then
              if !(tool.is_authorized []) then
                .error request_id JSONRPC_INTERNAL_ERROR
                  ("Tool '" ++ tool_name ++ "' not authorized.")
                  (some (.obj [("reason", .str "authorization_failed"),
                               ("required",
                                .arr (tool.manifest_auth_required.map .str))]))
              else
                runInvoke request_id tool_name (tool.invoke args)
            else
              if !(tool.is_authorized []) then
                .error request_id JSONRPC_INTERNAL_ERROR
                  "Tool authorization logic error." none
              else
                runInvoke request_id tool_name (tool.invoke args)
        | _ =>
          .error request_id JSONRPC_INVALID_PARAMS
            "Invalid params: 'invoke_params' or 'tool_params' must be an object/dictionary." none
      | _ =>
        .error request_id JSONRPC_INVALID_PARAMS
          "Invalid params: 'tool_name' (string) is required." none
    | _ =>
      .error request_id JSONRPC_INVALID_PARAMS
        "Invalid params: Expected an object with 'tool_name' and 'invoke_params'." none
  else
    .error request_id JSONRPC_METHOD_NOT_FOUND
      ("Method '" ++ m ++ "' not found.") none

/-- `mcp_handle_request` (py_toolbox/main.py, lines 205-313).  The caller
(the `mcp-serve` loop) guarantees that `"method"` is a key of the request, so
the `getD .null` default for the method is never consulted in the served
paths; a non-string method value fails every `==` comparison in Python and
reaches the final method-not-found branch. -/
def mcp_handle_request (tools : ToolTable) (req : List (String × JValue)) : Response :=
  let request_id : JValue := dlookupD req "id" .null
  let method : JValue := dlookupD req "method" .null
  let params : JValue := dlookupD req "params" (.obj [])
  match method with
  | .str m => mcpDispatch tools request_id params m
  | other =>
    .error request_id JSONRPC_METHOD_NOT_FOUND
      ("Method '" ++ jvalueText other ++ "' not found.") none

/-! ### The `mcp-serve` stdin/stdout loop (py_toolbox/main.py, lines 640-677) -/

/-- A lowercase hexadecimal digit, as `json.dumps` emits in `\uXXXX`
escapes. -/
def hexDigit (n : Nat) : Char :=
  if n < 10 then Char.ofNat (48 + n) else Char.ofNat (87 + n)

/-- Four lowercase hex digits of a code unit below 0x10000. -/
def hex4 (n : Nat) : String :=
  String.mk [hexDigit (n / 4096 % 16), hexDigit (n / 256 % 16),
             hexDigit (n / 16 % 16), hexDigit (n % 16)]

/-- `json.dumps` escaping of one character (default `ensure_ascii=True`):
backslash, double quote and the named control characters get two-character
escapes, every other character outside the printable ASCII range 0x20-0x7e
becomes `\uXXXX` (a surrogate pair above 0xFFFF). -/
def escapeJChar (c : Char) : String :=
  if c = '\\' then "\\\\"
  else if c = '\x22' then "\\\x22"
  else if c = '\n' then "\\n"
  else if c = '\t' then "\\t"
  else if c = '\x0d' then "\\r"
  else if c = '\x08' then "\\b"
  else if c = '\x0c' then "\\f"
  else if c.toNat < 32 then "\\u" ++ hex4 c.toNat
  else if c.toNat < 127 then String.singleton c
  else if c.toNat < 65536 then "\\u" ++ hex4 c.toNat
  else
    "\\u" ++ hex4 (55296 + (c.toNat - 65536) / 1024) ++
    "\\u" ++ hex4 (56320 + (c.toNat - 65536) % 1024)

/-- `json.dumps` escaping of a string body. -/
def escapeJString (s : String) : String :=
  String.join (s.data.map escapeJChar)

/-- JSON serialisation of a `JValue`, mirroring `json.dumps` with its default
separators and string escaping. -/
def renderJ : JValue → String
  | .null => "null"
  | .bool b => cond b "true" "false"
  | .num n => toString n
  | .str s => "\x22" ++ escapeJString s ++ "\x22"
  | .arr xs => "[" ++ String.intercalate ", " (xs.attach.map (fun x => renderJ x.1)) ++ "]"
  | .obj fs =>
      "\x7b" ++
      String.intercalate ", "
        (fs.attach.map (fun kv => "\x22" ++ escapeJString kv.1.1 ++ "\x22: " ++ renderJ kv.1.2)) ++
      "\x7d"
decreasing_by
  · have := List.sizeOf_lt_of_mem x.2
    simp only [JValue.arr.sizeOf_spec]
    omega
  · have h1 := List.sizeOf_lt_of_mem kv.2
    have h2 : sizeOf kv.1.2 < sizeOf kv.1 := by
      obtain ⟨a, b⟩ := kv.1
      simp only [Prod.mk.sizeOf_spec]
      omega
    simp only [JValue.obj.sizeOf_spec]
    omega

/-- `json.dumps` of a response dict built by `create_jsonrpc_success_response`
or `create_jsonrpc_error_response`. -/
def renderResponse : Response → String
  | .success id result =>
      "\x7b\x22jsonrpc\x22: \x222.0\x22, \x22result\x22: " ++ renderJ result ++
      ", \x22id\x22: " ++ renderJ id ++ "\x7d"
  | .error id code msg data =>
      "\x7b\x22jsonrpc\x22: \x222.0\x22, \x22error\x22: \x7b\x22code\x22: " ++
      toString code ++ ", \x22message\x22: \x22" ++ msg ++ "\x22" ++
      (match data with
       | none => ""
       | some d => ", \x22data\x22: " ++ renderJ d) ++
      "\x7d, \x22id\x22: " ++ renderJ id ++ "\x7d"

/-- Python's `line.strip()`: leading and trailing whitespace removed
(space, tab, newline, carriage return and the other ASCII whitespace that
`Char.isWhitespace` covers). -/
def pyStrip (s : String) : String :=
  String.mk
    (((s.data.dropWhile Char.isWhitespace).reverse.dropWhile Char.isWhitespace).reverse)

/-- One line read from standard input.  `raw` is the line as read;
`parsed` abstracts `json.loads` applied to the stripped line (`none` models
a `json.JSONDecodeError`).  The JSON parser itself is the Python standard
library, external to this repository, so it enters the model as data. -/
structure StdinLine where
  raw : String
  parsed : Option JValue

/-- CPython's type names, as they appear in an `AttributeError` message. -/
def pyTypeName : JValue → String
  | .null => "NoneType"
  | .bool _ => "bool"
  | .num _ => "int"
  | .str _ => "str"
  | .arr _ => "list"
  | .obj _ => "dict"

/-- The message written when the invalid-request branch itself raises:
for a parsed value that is not a dict, `request_obj.get("id")` raises
`AttributeError`, which the loop's `except Exception` arm formats as
`f"Internal server error: {e}"` (py_toolbox/main.py, lines 651-664). -/
def attrErrorMessage (v : JValue) : String :=
  "Internal server error: '" ++ pyTypeName v ++ "' object has no attribute 'get'"

/-- The `jsonrpc == "2.0"` test of the loop's request-structure check. -/
def jsonrpcIs2 (fields : List (String × JValue)) : Bool :=
  match dlookup fields "jsonrpc" with
  | some (.str s) => s == "2.0"
  | _ => false

/-- Processing of one non-empty stdin line (py_toolbox/main.py, lines
645-664): parse failure gives a -32700 response with a null id; a parsed
dict failing the JSON-RPC 2.0 structure check gives -32600 with the dict's
id; a well-formed request is dispatched; a parsed non-dict value enters the
structure-check branch but `request_obj.get("id")` raises `AttributeError`
there, so the generic `except Exception` arm answers -32603 with a null id
(`request_id` is still `None` at that point). -/
def handle_line (tools : ToolTable) (l : StdinLine) : Response :=
  match l.parsed with
  | none => .error .null JSONRPC_PARSE_ERROR "Failed to parse JSON request." none
  | some (.obj fields) =>
      if jsonrpcIs2 fields && hasKey fields "method" then
        mcp_handle_request tools fields
      else
        .error (dlookupD fields "id" .null) JSONRPC_INVALID_REQUEST
          "Invalid JSON-RPC 2.0 request structure." none
  | some v => .error .null JSONRPC_INTERNAL_ERROR (attrErrorMessage v) none

/-- The responses produced by the `for line in sys.stdin` loop, in order:
a stripped-empty line is skipped (`continue`), every other line produces
exactly one response. -/
def mcp_serve (tools : ToolTable) : List StdinLine → List Response
  | [] => []
  | l :: rest =>
      if pyStrip l.raw = "" then mcp_serve tools rest
      else handle_line tools l :: mcp_serve tools rest

/-- Everything the loop writes to standard output.  The source at
py_toolbox/main.py line 668 is `sys.stdout.write(response_str + "\\n")` —
the Python literal there is backslash-backslash-n, which denotes the TWO
characters `\` and `n`, not a newline — so each processed line appends the
rendered response followed by `\` and `n` before the next line is read. -/
def serve_stdout (tools : ToolTable) : List StdinLine → String
  | [] => ""
  | l :: rest =>
      if pyStrip l.raw = "" then serve_stdout tools rest
      else renderResponse (handle_line tools l) ++ "\\n" ++ serve_stdout tools rest

/-- Concatenation of a list of output chunks, each followed by the
two-character sequence backslash `n` that main.py line 668 actually
appends. -/
def backslashNTerminated : List String → String
  | [] => ""
  | s :: rest => s ++ "\\n" ++ backslashNTerminated rest

/-- A well-formed JSON-RPC request object for method `m` with no params. -/
def methodReq (reqId : JValue) (m : String) : List (String × JValue) :=
  [("jsonrpc", .str "2.0"), ("method", .str m), ("id", reqId)]

/-- A well-formed `get_tool_description` request for the tool `name`. -/
def gtdReq (reqId : JValue) (name : String) : List (String × JValue) :=
  [("jsonrpc", .str "2.0"), ("method", .str "get_tool_description"), ("id", reqId),
   ("params", .obj [("tool_name", .str name)])]

/-- A well-formed `invoke_tool` request for the tool `name` with arguments
`args`. -/
def invokeReq (reqId : JValue) (name : String) (args : List (String × JValue)) :
    List (String × JValue) :=
  [("jsonrpc", .str "2.0"), ("method", .str "invoke_tool"), ("id", reqId),
   ("params", .obj [("tool_name", .str name), ("invoke_params", .obj args)])]

end PyToolbox

namespace MCPHub

/-!
### The `mcp_hub` registry (mcp_hub/api/routes.py, mcp_hub/models/tool_registry_models.py)

The SQLAlchemy session/table becomes explicit state passing over a list of
rows; `func.now()` becomes an explicit `now : Nat` argument to each handler
(the database clock).  The routes run one request at a time (TestClient /
single session), so `db.commit()` succeeds in the model and the
`IntegrityError` race arm is unreachable.
-/

/-- `McpManifestModel` as stored in the `mcp_manifest` JSON column. -/
structure McpManifestData where
  name : String
  description : String
  input_schema : JValue

/-- A row of the `registered_tools` table (`RegisteredTool`,
tool_registry_models.py lines 9-27).  `registered_at` has
`server_default=func.now()`; `last_heartbeat_at` is nullable. -/
structure RegisteredToolRow where
  id : Nat
  tool_name : String
  microservice_id : String
  description : Option String
  invocation_info : JValue
  mcp_manifest : McpManifestData
  registered_at : Nat
  last_heartbeat_at : Option Nat

/-- The table plus the autoincrement counter for the integer primary key. -/
structure HubDB where
  rows : List RegisteredToolRow
  nextId : Nat

/-- `ToolRegistrationRequest` (tool_registry_models.py lines 50-55). -/
structure ToolRegistrationRequest where
  tool_name : String
  microservice_id : String
  description : Option String
  invocation_info : JValue
  mcp_manifest : McpManifestData

/-- `ToolRegistrationResponse` (tool_registry_models.py lines 57-61). -/
structure ToolRegistrationResponse where
  id : Nat
  tool_name : String
  microservice_id : String
  registered_at : Nat

/-- The row filter used by register/lookup/heartbeat:
`microservice_id == ms AND tool_name == tn`. -/
def matchesKey (ms tn : String) (r : RegisteredToolRow) : Bool :=
  r.microservice_id == ms && r.tool_name == tn

/-- `db.query(RegisteredTool).filter(...).first()` for the
(microservice_id, tool_name) filter. -/
def findTool (db : HubDB) (ms tn : String) : Option RegisteredToolRow :=
  db.rows.find? (matchesKey ms tn)

/-- Mutating the first row satisfying `p` in place (`first()` followed by
attribute assignment and `commit`), leaving every other row untouched. -/
def updateFirst (p : RegisteredToolRow → Bool) (f : RegisteredToolRow → RegisteredToolRow) :
    List RegisteredToolRow → List RegisteredToolRow
  | [] => []
  | r :: rs => if p r then f r :: rs else r :: updateFirst p f rs

/-- `register_tool` (routes.py lines 15-83).  Returns the new state, the HTTP
status (201 for create, 200 for update) and the `ToolRegistrationResponse`
body, whose `registered_at` is read back from the row after commit. -/
def register_tool (db : HubDB) (req : ToolRegistrationRequest) (now : Nat) :
    HubDB × Nat × ToolRegistrationResponse :=
  match findTool db req.microservice_id req.tool_name with
  | some row =>
      -- update in place: description, mcp_manifest, invocation_info and
      -- last_heartbeat_at are assigned; registered_at is not touched.
      let row' := { row with
        description := req.description
        mcp_manifest := req.mcp_manifest
        invocation_info := req.invocation_info
        last_heartbeat_at := some now }
      ({ db with
         rows := updateFirst (matchesKey req.microservice_id req.tool_name)
           (fun r => { r with
              description := req.description
              mcp_manifest := req.mcp_manifest
              invocation_info := req.invocation_info
              last_heartbeat_at := some now }) db.rows },
       200,
       ⟨row'.id, row'.tool_name, row'.microservice_id, row'.registered_at⟩)
  | none =>
      let row : RegisteredToolRow :=
        { id := db.nextId
          tool_name := req.tool_name
          microservice_id := req.microservice_id
          description := req.description
          invocation_info := req.invocation_info
          mcp_manifest := req.mcp_manifest
          registered_at := now      -- server_default=func.now() at insert
          last_heartbeat_at := some now }
      ({ rows := db.rows ++ [row], nextId := db.nextId + 1 },
       201,
       ⟨row.id, row.tool_name, row.microservice_id, row.registered_at⟩)

/-- `tool_heartbeat` (routes.py lines 147-172): 404 and no change when no row
matches, otherwise `last_heartbeat_at = func.now()` on the matched row and
200. -/
def tool_heartbeat (db : HubDB) (ms tn : String) (now : Nat) : HubDB × Nat :=
  match findTool db ms tn with
  | none => (db, 404)
  | some _ =>
      ({ db with
         rows := updateFirst (matchesKey ms tn)
           (fun r => { r with last_heartbeat_at := some now }) db.rows },
       200)

/-- `delete_tool` (routes.py lines 133-145): 404 when the id is absent,
otherwise the row is removed and 204 returned. -/
def delete_tool (db : HubDB) (tid : Nat) : HubDB × Nat :=
  match db.rows.find? (fun r => r.id == tid) with
  | none => (db, 404)
  | some _ => ({ db with rows := db.rows.filter (fun r => r.id != tid) }, 204)

/-- The state-mutating operations of the hub API. -/
inductive HubOp where
  | register (req : ToolRegistrationRequest)
  | heartbeat (ms tn : String)
  | delete (tid : Nat)

/-- The state left by one mutating API call executed at database time `now`. -/
def hubStep (db : HubDB) (op : HubOp) (now : Nat) : HubDB :=
  match op with
  | .register req => (register_tool db req now).1
  | .heartbeat ms tn => (tool_heartbeat db ms tn now).1
  | .delete tid => (delete_tool db tid).1

/-- Order on optional heartbeat timestamps: a missing timestamp is below
everything, and a present one never decreases. -/
def hbLe : Option Nat → Option Nat → Prop
  | none, _ => True
  | some _, none => False
  | some a, some b => a ≤ b

/-!
### HTTP routing (mcp_hub/main.py line 29, mcp_hub/api/routes.py)

Starlette matches routes in declaration order; a plain `{tool_id}` path
parameter uses the default string convertor, matching any single non-slash
segment, and FastAPI validates the `int` annotation only after the route has
matched (a failed validation answers 422).  The router is included under the
prefix `/api/v1`.
-/

/-- A segment of a route pattern: a literal, or a `{...}` path parameter. -/
inductive Seg where
  | lit (s : String)
  | param

/-- Starlette's per-segment match: a path parameter without an explicit
convertor matches any single segment. -/
def segMatches : Seg → String → Bool
  | .lit s, x => s == x
  | .param, _ => true

def patMatches : List Seg → List String → Bool
  | [], [] => true
  | p :: ps, x :: xs => segMatches p x && patMatches ps xs
  | _, _ => false

/-- Response bodies of the GET endpoints, plus FastAPI's 422 validation
response. -/
inductive HubBody where
  | detail (r : RegisteredToolRow)
  | listing (rs : List RegisteredToolRow)
  | validationError
  | notFound (msg : String)

structure HubHttpResponse where
  status : Nat
  body : HubBody

/-- Decimal digits of a path segment (helper for the `int` convertor). -/
def parseDigits (cs : List Char) : Option Nat :=
  match cs with
  | [] => none
  | l =>
      if l.all (fun c => c.isDigit) then
        some (l.foldl (fun n c => n * 10 + (c.toNat - '0'.toNat)) 0)
      else none

/-- Pydantic's validation of an `int` path parameter: an optional leading
minus sign followed by one or more decimal digits; anything else (such as
the segment "lookup") fails validation. -/
def parseIntSeg (s : String) : Option Int :=
  match s.data with
  | '-' :: rest => (parseDigits rest).map (fun n => -(n : Int))
  | l => (parseDigits l).map (fun n => (n : Int))

/-- `get_tool_detail` (routes.py lines 105-113), for an already-validated
integer `tool_id`. -/
def get_tool_detail (db : HubDB) (tid : Int) : HubHttpResponse :=
  match db.rows.find? (fun r => (r.id : Int) == tid) with
  | none => ⟨404, .notFound "Tool not found by Hub ID"⟩
  | some r => ⟨200, .detail r⟩

/-- `get_tool_by_microservice_and_name` (routes.py lines 116-131). -/
def get_tool_by_microservice_and_name (db : HubDB) (ms tn : String) : HubHttpResponse :=
  match findTool db ms tn with
  | none =>
      ⟨404, .notFound ("Tool '" ++ tn ++ "' from microservice '" ++ ms ++ "' not found.")⟩
  | some r => ⟨200, .detail r⟩

/-- `list_tools` (routes.py lines 86-102): optional `microservice_id` filter
(Python truthiness: `None` and `""` both skip the filter), then
offset/limit. -/
def list_tools_route (db : HubDB) (ms : Option String) (skip limit : Nat) : HubHttpResponse :=
  let base :=
    match ms with
    | some m => if m == "" then db.rows else db.rows.filter (fun r => r.microservice_id == m)
    | none => db.rows
  ⟨200, .listing ((base.drop skip).take limit)⟩

/-- Query parameters of a GET request to the hub. -/
structure GetQuery where
  microservice_id : Option String := none
  tool_name : Option String := none
  skip : Nat := 0
  limit : Nat := 100

/-- Dispatch of a GET request over the hub's route table in declaration
order (routes.py: POST `/tools` line 15, GET `/tools` line 86,
GET `/tools/{tool_id}` line 105, GET `/tools/lookup` line 116,
DELETE `/tools/{tool_id}` line 133, POST heartbeat line 147; the POST and
DELETE routes never match a GET request, so only the GET routes appear
here, in the same relative order). -/
def dispatchGET (db : HubDB) (path : List String) (q : GetQuery) : HubHttpResponse :=
  if patMatches [.lit "api", .lit "v1", .lit "tools"] path then
    list_tools_route db q.microservice_id q.skip q.limit
  else if patMatches [.lit "api", .lit "v1", .lit "tools", .param] path then
    -- GET /tools/{tool_id} is declared BEFORE GET /tools/lookup, so it
    -- captures /api/v1/tools/lookup; the int validation of tool_id then
    -- fails on the segment "lookup" and FastAPI answers 422.
    match parseIntSeg (path.getD 3 "") with
    | none => ⟨422, .validationError⟩
    | some tid => get_tool_detail db tid
  else if patMatches [.lit "api", .lit "v1", .lit "tools", .lit "lookup"] path then
    -- unreachable for this path: the previous route already matched it.
    match q.microservice_id, q.tool_name with
    | some ms, some tn => get_tool_by_microservice_and_name db ms tn
    | _, _ => ⟨422, .validationError⟩
  else
    ⟨404, .notFound "Not Found"⟩

end MCPHub

namespace LangchainSDK

/-!
### LangChain SDK utilities (sdks/langchain/src/toolbox_langchain_sdk/utils.py)
-/

/-- The Python types that `_parse_type` can return. -/
inductive PyType where
  | pstr
  | pint
  | pfloat
  | pbool
  | plist
deriving DecidableEq, Repr

/-- `_parse_type` (utils.py lines 78-100): the five supported manifest type
names, with a `ValueError` (modelled as `Except.error`) for anything else. -/
def parse_type (t : String) : Except String PyType :=
  if t = "string" then .ok .pstr
  else if t = "integer" then .ok .pint
  else if t = "number" then .ok .pfloat
  else if t = "boolean" then .ok .pbool
  else if t = "array" then .ok .plist
  else .error ("Unsupported schema type: " ++ t)

/-- `ParameterSchema` (utils.py lines 9-13). -/
structure ParameterSchema where
  name : String
  type : String
  description : String
  authSources : Option (List String) := none

/-- `_schema_to_model` (utils.py lines 49-75): builds the
`field_definitions` for `create_model`, calling `_parse_type` on each field
in order; the first `ValueError` raised by `_parse_type` propagates.
`create_model` itself always succeeds on well-typed field definitions. -/
def schema_to_model : List ParameterSchema → Except String (List (String × PyType))
  | [] => .ok []
  | f :: rest =>
      match parse_type f.type with
      | .error e => .error e
      | .ok t =>
          match schema_to_model rest with
          | .error e => .error e
          | .ok fs => .ok ((f.name, t) :: fs)

/-- Python dict assignment `d[k] = v`: replaces the value in place when the
key exists (keeping its position), appends the binding otherwise. -/
def set_key (d : List (String × JValue)) (k : String) (v : JValue) :
    List (String × JValue) :=
  if d.any (fun kv => kv.1 == k) then
    d.map (fun kv => if kv.1 == k then (k, v) else kv)
  else d ++ [(k, v)]

/-- Python `data.update(bounded_params)`: assigns every binding of
`bounded_params`, in iteration order, into `data`. -/
def dict_update (d u : List (String × JValue)) : List (String × JValue) :=
  u.foldl (fun acc kv => set_key acc kv.1 kv.2) d

/-- `_convert_none_to_empty_string` (utils.py lines 170-177): a new dict with
every `None` value replaced by `""`, in the same iteration order. -/
def convert_none_to_empty_string (d : List (String × JValue)) :
    List (String × JValue) :=
  d.map (fun kv =>
    match kv.2 with
    | .null => (kv.1, JValue.str "")
    | v => (kv.1, v))

/-- The JSON body POSTed by `_invoke_tool` (utils.py lines 121-166):
`data.update(bounded_params)` followed by `_convert_none_to_empty_string` on
the merged dict. -/
def invoke_tool_body (data bounded : List (String × JValue)) :
    List (String × JValue) :=
  convert_none_to_empty_string (dict_update data bounded)

/-- Python `d.get(k)` over the association-list rendering of a dict. -/
def dget (d : List (String × JValue)) (k : String) : Option JValue :=
  (d.find? (fun kv => kv.1 == k)).map (fun kv => kv.2)

/-- `None`-to-`""` on a single value, as `_convert_none_to_empty_string`
applies it to each dict entry. -/
def noneToEmpty : JValue → JValue
  | .null => JValue.str ""
  | v => v

/-- Two input dicts that have the same keys in the same order and agree on
every value whose key is outside `B` (they may differ only at keys of `B`). -/
def AgreesOff (B : List String) (d1 d2 : List (String × JValue)) : Prop :=
  List.Forall₂ (fun a b => a.1 = b.1 ∧ (a.1 ∉ B → a.2 = b.2)) d1 d2

end LangchainSDK

/-! ## Theorems -/

namespace LangchainSDK

lemma parse_type_ok_iff (t : String) :
    (∃ ty, parse_type t = .ok ty) ↔
      t ∈ ["string", "integer", "number", "boolean", "array"] := by
  unfold parse_type
  split_ifs with h1 h2 h3 h4 h5 <;> simp_all

lemma schema_to_model_ok_iff (schema : List ParameterSchema) :
    (∃ fs, schema_to_model schema = .ok fs) ↔
      ∀ f ∈ schema, f.type ∈ ["string", "integer", "number", "boolean", "array"] := by
  induction schema with
  | nil => simp [schema_to_model]
  | cons f rest ih =>
    constructor
    · rintro ⟨fs, hfs⟩ g hg
      unfold schema_to_model at hfs
      rcases hpt : parse_type f.type with e | ty
      · rw [hpt] at hfs; exact absurd hfs (by simp)
      · rw [hpt] at hfs
        rcases List.mem_cons.mp hg with rfl | hg
        · exact (parse_type_ok_iff g.type).mp ⟨ty, hpt⟩
        · rcases hrest : schema_to_model rest with e | fs' <;> rw [hrest] at hfs
          · exact absurd hfs (by simp)
          · exact ih.mp ⟨fs', hrest⟩ g hg
    · intro hall
      obtain ⟨ty, hty⟩ := (parse_type_ok_iff f.type).mpr (hall f (by simp))
      obtain ⟨fs', hfs'⟩ := ih.mpr (fun g hg => hall g (by simp [hg]))
      exact ⟨(f.name, ty) :: fs', by unfold schema_to_model; rw [hty, hfs']⟩

/-- C8: `_parse_type` maps exactly "string"↦str, "integer"↦int,
"number"↦float, "boolean"↦bool, "array"↦list and raises `ValueError` on every
other type name, so `_schema_to_model` succeeds on a manifest schema iff
every parameter type is one of those five names. -/
theorem C8_parse_type_and_schema_to_model :
    (parse_type "string" = .ok .pstr ∧ parse_type "integer" = .ok .pint ∧
     parse_type "number" = .ok .pfloat ∧ parse_type "boolean" = .ok .pbool ∧
     parse_type "array" = .ok .plist) ∧
    (∀ t : String, t ∉ ["string", "integer", "number", "boolean", "array"] →
      parse_type t = .error ("Unsupported schema type: " ++ t)) ∧
    (∀ schema : List ParameterSchema,
      (∃ fs, schema_to_model schema = .ok fs) ↔
        ∀ f ∈ schema, f.type ∈ ["string", "integer", "number", "boolean", "array"]) := by
  refine ⟨⟨rfl, rfl, rfl, rfl, rfl⟩, ?_, schema_to_model_ok_iff⟩
  intro t ht
  simp only [List.mem_cons, List.not_mem_nil, or_false, not_or] at ht
  obtain ⟨h1, h2, h3, h4, h5⟩ := ht
  unfold parse_type
  simp [h1, h2, h3, h4, h5]

/-- Witness for C8 at the concrete unsupported type name "uuid". -/
theorem C8_witness :
    ("uuid" ∉ (["string", "integer", "number", "boolean", "array"] : List String)) ∧
    parse_type "uuid" = .error ("Unsupported schema type: " ++ "uuid") :=
  ⟨by decide,
   C8_parse_type_and_schema_to_model.2.1 "uuid" (by decide)⟩

lemma dget_cons_of_pos (kv : String × JValue) (d : List (String × JValue)) (k : String)
    (h : kv.1 = k) : dget (kv :: d) k = some kv.2 := by
  unfold dget
  rw [List.find?_cons_of_pos _ (by simp [h])]
  rfl

lemma dget_cons_of_neg (kv : String × JValue) (d : List (String × JValue)) (k : String)
    (h : kv.1 ≠ k) : dget (kv :: d) k = dget d k := by
  unfold dget
  rw [List.find?_cons_of_neg _ (by simp [h])]

lemma dget_map_replace_self (k : String) (v : JValue) (d : List (String × JValue))
    (h : d.any (fun kv => kv.1 == k) = true) :
    dget (d.map (fun kv => if kv.1 == k then (k, v) else kv)) k = some v := by
  induction d with
  | nil => simp at h
  | cons kv d ih =>
    rw [List.map_cons]
    by_cases hk : kv.1 = k
    · have he : (if (kv.1 == k) = true then (k, v) else kv) = (k, v) := by simp [hk]
      rw [he, dget_cons_of_pos (k, v) _ k rfl]
    · have he : (if (kv.1 == k) = true then (k, v) else kv) = kv := by simp [hk]
      rw [he, dget_cons_of_neg kv _ k hk]
      apply ih
      rcases List.any_eq_true.mp h with ⟨x, hx, hxk⟩
      rcases List.mem_cons.mp hx with rfl | hx'
      · exact absurd (by simpa using hxk) hk
      · exact List.any_eq_true.mpr ⟨x, hx', hxk⟩

lemma dget_map_replace_ne (k k' : String) (v : JValue) (d : List (String × JValue))
    (h : k' ≠ k) :
    dget (d.map (fun kv => if kv.1 == k then (k, v) else kv)) k' = dget d k' := by
  induction d with
  | nil => rfl
  | cons kv d ih =>
    rw [List.map_cons]
    by_cases hk : kv.1 = k
    · have he : (if (kv.1 == k) = true then (k, v) else kv) = (k, v) := by simp [hk]
      rw [he, dget_cons_of_neg (k, v) _ k' (Ne.symm h),
          dget_cons_of_neg kv _ k' (by rw [hk]; exact Ne.symm h), ih]
    · have he : (if (kv.1 == k) = true then (k, v) else kv) = kv := by simp [hk]
      by_cases hk' : kv.1 = k'
      · rw [he, dget_cons_of_pos kv _ k' hk', dget_cons_of_pos kv _ k' hk']
      · rw [he, dget_cons_of_neg kv _ k' hk', dget_cons_of_neg kv _ k' hk', ih]

lemma dget_append_single_ne (d : List (String × JValue)) (k k' : String) (v : JValue)
    (h : k' ≠ k) : dget (d ++ [(k, v)]) k' = dget d k' := by
  induction d with
  | nil =>
    rw [List.nil_append]
    rw [dget_cons_of_neg (k, v) [] k' (Ne.symm h)]
  | cons kv d ih =>
    rw [List.cons_append]
    by_cases hk' : kv.1 = k'
    · rw [dget_cons_of_pos kv _ k' hk', dget_cons_of_pos kv _ k' hk']
    · rw [dget_cons_of_neg kv _ k' hk', dget_cons_of_neg kv _ k' hk', ih]

lemma dget_append_single_self (d : List (String × JValue)) (k : String) (v : JValue)
    (h : d.any (fun kv => kv.1 == k) = false) :
    dget (d ++ [(k, v)]) k = some v := by
  induction d with
  | nil => exact dget_cons_of_pos (k, v) [] k rfl
  | cons kv d ih =>
    simp only [List.any_cons, Bool.or_eq_false_iff] at h
    rw [List.cons_append, dget_cons_of_neg kv _ k (by simpa using h.1)]
    exact ih h.2

lemma dget_set_key_self (d : List (String × JValue)) (k : String) (v : JValue) :
    dget (set_key d k v) k = some v := by
  unfold set_key
  split_ifs with h
  · exact dget_map_replace_self k v d h
  · exact dget_append_single_self d k v (Bool.eq_false_iff.mpr h)

lemma dget_set_key_ne (d : List (String × JValue)) (k k' : String) (v : JValue)
    (h : k' ≠ k) : dget (set_key d k v) k' = dget d k' := by
  unfold set_key
  split_ifs with hany
  · exact dget_map_replace_ne k k' v d h
  · exact dget_append_single_ne d k k' v h

lemma dget_dict_update_not_mem (u d : List (String × JValue)) (k : String)
    (h : ∀ kv ∈ u, kv.1 ≠ k) :
    dget (dict_update d u) k = dget d k := by
  induction u generalizing d with
  | nil => rfl
  | cons kv u ih =>
    have hstep : dict_update d (kv :: u) = dict_update (set_key d kv.1 kv.2) u := rfl
    rw [hstep, ih _ (fun x hx => h x (List.mem_cons_of_mem kv hx))]
    exact dget_set_key_ne d kv.1 k kv.2
      (fun he => h kv (List.mem_cons_self kv u) he.symm)

lemma dget_dict_update_mem (u d : List (String × JValue)) (k : String)
    (hnd : (u.map Prod.fst).Nodup) (hk : k ∈ u.map Prod.fst) :
    dget (dict_update d u) k = dget u k := by
  induction u generalizing d with
  | nil => simp at hk
  | cons kv u ih =>
    have hstep : dict_update d (kv :: u) = dict_update (set_key d kv.1 kv.2) u := rfl
    simp only [List.map_cons, List.nodup_cons] at hnd
    by_cases hkk : k = kv.1
    · have hrest : ∀ x ∈ u, x.1 ≠ k := by
        intro x hx he
        apply hnd.1
        have hm : x.1 ∈ u.map Prod.fst := List.mem_map_of_mem Prod.fst hx
        rwa [he, hkk] at hm
      rw [hstep, dget_dict_update_not_mem u _ k hrest, hkk,
          dget_set_key_self d kv.1 kv.2, dget_cons_of_pos kv u kv.1 rfl]
    · have hk2 : k ∈ kv.1 :: u.map Prod.fst := by
        rw [← List.map_cons]
        exact hk
      have hk' : k ∈ u.map Prod.fst := by
        rcases List.mem_cons.mp hk2 with h | h
        · exact absurd h hkk
        · exact h
      rw [hstep, ih _ hnd.2 hk', dget_cons_of_neg kv u k (fun he => hkk he.symm)]

lemma agreesOff_nil_eq (d1 d2 : List (String × JValue)) (h : AgreesOff [] d1 d2) :
    d1 = d2 := by
  induction h with
  | nil => rfl
  | @cons a b l1 l2 hab htail ih =>
    have hab' : a = b := by
      have h1 := hab.1
      have h2 := hab.2 (List.not_mem_nil a.1)
      obtain ⟨a1, a2⟩ := a
      obtain ⟨b1, b2⟩ := b
      simp_all
    rw [hab', ih]

lemma agreesOff_keys_eq (B : List String) (d1 d2 : List (String × JValue))
    (h : AgreesOff B d1 d2) : d1.map Prod.fst = d2.map Prod.fst := by
  induction h with
  | nil => rfl
  | @cons a b l1 l2 hab htail ih => simp [hab.1, ih]

lemma agreesOff_map_replace (B : List String) (k : String) (v : JValue)
    (d1 d2 : List (String × JValue)) (h : AgreesOff (k :: B) d1 d2) :
    AgreesOff B (d1.map (fun kv => if kv.1 == k then (k, v) else kv))
              (d2.map (fun kv => if kv.1 == k then (k, v) else kv)) := by
  induction h with
  | nil => exact List.Forall₂.nil
  | @cons a b l1 l2 hab htail ih =>
    rw [List.map_cons, List.map_cons]
    refine List.Forall₂.cons ?_ ih
    by_cases hak : a.1 = k
    · have hbk : b.1 = k := by rw [← hab.1]; exact hak
      have ha' : (if (a.1 == k) = true then (k, v) else a) = (k, v) := by simp [hak]
      have hb' : (if (b.1 == k) = true then (k, v) else b) = (k, v) := by simp [hbk]
      rw [ha', hb']
      exact ⟨rfl, fun _ => rfl⟩
    · have hbk : ¬b.1 = k := by rw [← hab.1]; exact hak
      have ha' : (if (a.1 == k) = true then (k, v) else a) = a := by simp [hak]
      have hb' : (if (b.1 == k) = true then (k, v) else b) = b := by simp [hbk]
      rw [ha', hb']
      exact ⟨hab.1, fun hnB => hab.2 (by simp [hak, hnB])⟩

lemma agreesOff_weaken_of_no_key (B : List String) (k : String)
    (d1 d2 : List (String × JValue)) (h : AgreesOff (k :: B) d1 d2)
    (hno : ∀ a ∈ d1, a.1 ≠ k) : AgreesOff B d1 d2 := by
  induction h with
  | nil => exact List.Forall₂.nil
  | @cons a b l1 l2 hab htail ih =>
    refine List.Forall₂.cons
      ⟨hab.1, fun hnB => hab.2 ?_⟩
      (ih (fun x hx => hno x (List.mem_cons_of_mem a hx)))
    simp [hno a (List.mem_cons_self a l1), hnB]

lemma any_key_eq (d1 d2 : List (String × JValue)) (k : String)
    (h : d1.map Prod.fst = d2.map Prod.fst) :
    d1.any (fun kv => kv.1 == k) = d2.any (fun kv => kv.1 == k) := by
  induction d1 generalizing d2 with
  | nil =>
    cases d2 with
    | nil => rfl
    | cons b l2 => simp at h
  | cons a l1 ih =>
    cases d2 with
    | nil => simp at h
    | cons b l2 =>
      simp only [List.map_cons, List.cons.injEq] at h
      simp only [List.any_cons, h.1, ih l2 h.2]

lemma agreesOff_append_single (B : List String) (kv : String × JValue)
    (d1 d2 : List (String × JValue)) (h : AgreesOff B d1 d2) :
    AgreesOff B (d1 ++ [kv]) (d2 ++ [kv]) := by
  induction h with
  | nil => exact List.Forall₂.cons ⟨rfl, fun _ => rfl⟩ List.Forall₂.nil
  | @cons a b l1 l2 hab htail ih => exact List.Forall₂.cons hab ih

lemma set_key_agreesOff (B : List String) (k : String) (v : JValue)
    (d1 d2 : List (String × JValue)) (h : AgreesOff (k :: B) d1 d2) :
    AgreesOff B (set_key d1 k v) (set_key d2 k v) := by
  have hkeys : d1.map Prod.fst = d2.map Prod.fst := agreesOff_keys_eq _ _ _ h
  have hany : d1.any (fun kv => kv.1 == k) = d2.any (fun kv => kv.1 == k) :=
    any_key_eq d1 d2 k hkeys
  unfold set_key
  cases h2 : d2.any (fun kv => kv.1 == k) with
  | true =>
    rw [hany, h2]
    simp only [if_pos]
    exact agreesOff_map_replace B k v d1 d2 h
  | false =>
    rw [hany, h2]
    simp only [Bool.false_eq_true, if_false]
    have hno : ∀ a ∈ d1, a.1 ≠ k := by
      intro a ha hak
      have : d1.any (fun kv => kv.1 == k) = true :=
        List.any_eq_true.mpr ⟨a, ha, by simp [hak]⟩
      rw [hany, h2] at this
      exact absurd this (by simp)
    exact agreesOff_append_single B (k, v) d1 d2
      (agreesOff_weaken_of_no_key B k d1 d2 h hno)

lemma dict_update_agreesOff (u d1 d2 : List (String × JValue))
    (h : AgreesOff (u.map Prod.fst) d1 d2) :
    dict_update d1 u = dict_update d2 u := by
  induction u generalizing d1 d2 with
  | nil => exact agreesOff_nil_eq _ _ h
  | cons kv u ih =>
    exact ih _ _ (set_key_agreesOff (u.map Prod.fst) kv.1 kv.2 d1 d2 h)

lemma dget_convert_none (d : List (String × JValue)) (k : String) :
    dget (convert_none_to_empty_string d) k = (dget d k).map noneToEmpty := by
  induction d with
  | nil => rfl
  | cons kv d ih =>
    obtain ⟨k0, v0⟩ := kv
    have hconv : convert_none_to_empty_string ((k0, v0) :: d)
        = (k0, noneToEmpty v0) :: convert_none_to_empty_string d := by
      cases v0 <;> rfl
    rw [hconv]
    by_cases hk : k0 = k
    · rw [dget_cons_of_pos (k0, noneToEmpty v0) _ k hk, dget_cons_of_pos (k0, v0) _ k hk]
      rfl
    · rw [dget_cons_of_neg (k0, noneToEmpty v0) _ k hk, dget_cons_of_neg (k0, v0) _ k hk,
          ih]

/-- C10: in `_invoke_tool`, `data.update(bounded_params)` makes the merged
dict hold exactly the bounded value at every bounded key (whatever the caller
supplied there); the POSTed body is the merged dict with every `None` value
replaced by `""`; and two calls differing only in caller-supplied values at
bounded keys POST identical bodies. -/
theorem C10_invoke_body (data data1 data2 bounded : List (String × JValue)) (k : String)
    (hnd : (bounded.map Prod.fst).Nodup)
    (hk : k ∈ bounded.map Prod.fst)
    (hagree : AgreesOff (bounded.map Prod.fst) data1 data2) :
    dget (dict_update data bounded) k = dget bounded k ∧
    dget (invoke_tool_body data bounded) k = (dget bounded k).map noneToEmpty ∧
    invoke_tool_body data1 bounded = invoke_tool_body data2 bounded ∧
    (∀ kv ∈ invoke_tool_body data bounded, kv.2 ≠ JValue.null) := by
  refine ⟨dget_dict_update_mem bounded data k hnd hk, ?_, ?_, ?_⟩
  · rw [invoke_tool_body, dget_convert_none,
        dget_dict_update_mem bounded data k hnd hk]
  · unfold invoke_tool_body
    rw [dict_update_agreesOff bounded data1 data2 hagree]
  · intro kv hkv
    unfold invoke_tool_body convert_none_to_empty_string at hkv
    rcases List.mem_map.mp hkv with ⟨⟨k', v'⟩, _, hkv'⟩
    cases v' <;> subst hkv' <;> simp

/-- Witness for C10: `bounded = {a: 1}`, two callers supplying 9 and 7 at the
bounded key `a` and `None` at `b`. -/
theorem C10_witness :
    ((([("a", JValue.num 1)] : List (String × JValue)).map Prod.fst).Nodup) ∧
    ("a" ∈ ([("a", JValue.num 1)] : List (String × JValue)).map Prod.fst) ∧
    dget (dict_update [("a", JValue.num 9), ("b", JValue.null)] [("a", JValue.num 1)]) "a"
      = dget [("a", JValue.num 1)] "a" ∧
    invoke_tool_body [("a", JValue.num 9), ("b", JValue.null)] [("a", JValue.num 1)]
      = invoke_tool_body [("a", JValue.num 7), ("b", JValue.null)] [("a", JValue.num 1)] ∧
    (∀ kv ∈ invoke_tool_body [("a", JValue.num 9), ("b", JValue.null)]
        [("a", JValue.num 1)], kv.2 ≠ JValue.null) := by
  have h := C10_invoke_body
    [("a", JValue.num 9), ("b", JValue.null)]
    [("a", JValue.num 9), ("b", JValue.null)]
    [("a", JValue.num 7), ("b", JValue.null)]
    [("a", JValue.num 1)] "a"
    (by decide) (by decide)
    (List.Forall₂.cons ⟨rfl, fun hmem => absurd (by decide) hmem⟩
      (List.Forall₂.cons ⟨rfl, fun _ => rfl⟩ List.Forall₂.nil))
  exact ⟨by decide, by decide, h.1, h.2.2.1, h.2.2.2⟩

end LangchainSDK

namespace PyToolbox

open JValue

/-- Reduction of `mcp_handle_request` on a well-formed `invoke_tool` request
whose tool exists: what remains is exactly the authorization gate followed by
the `invoke` try/except block. -/
lemma mcp_invoke_reduces (tools : ToolTable) (reqId : JValue) (name : String)
    (args : List (String × JValue)) (tool : ToolModel)
    (hfind : lookupTool tools name = some tool) :
    mcp_handle_request tools (invokeReq reqId name args) =
      if tool.manifest_auth_required ≠ [] then
        if !(tool.is_authorized []) then
          .error reqId JSONRPC_INTERNAL_ERROR
            ("Tool '" ++ name ++ "' not authorized.")
            (some (.obj [("reason", .str "authorization_failed"),
                         ("required", .arr (tool.manifest_auth_required.map .str))]))
        else runInvoke reqId name (tool.invoke args)
      else
        if !(tool.is_authorized []) then
          .error reqId JSONRPC_INTERNAL_ERROR "Tool authorization logic error." none
        else runInvoke reqId name (tool.invoke args) := by
  simp [mcp_handle_request, invokeReq, dlookupD, dlookup, mcpDispatch, hfind]

lemma length_append_pos_left (a b : String) (h : 0 < a.length) :
    0 < (a ++ b).length := by
  rw [String.length_append]
  omega

/-- C3: on an `invoke_tool` request for an initialized, authorized tool, the
response is determined by the tool's `invoke` outcome: a `ValueError` becomes
a -32602 error, a `ConnectionError` or any other exception becomes a -32603
error, every error response carries a non-empty textual message (the
dispatcher returns a response rather than propagating the exception), and a
normal return becomes a success response carrying the result. -/
theorem C3_invoke_tool_error_mapping (tools : ToolTable) (reqId : JValue)
    (name : String) (tool : ToolModel) (args : List (String × JValue))
    (hfind : lookupTool tools name = some tool)
    (hauth : tool.is_authorized [] = true) :
    mcp_handle_request tools (invokeReq reqId name args) =
      (match tool.invoke args with
       | .ok result => Response.success reqId result
       | .valueError m =>
           Response.error reqId (-32602)
             ("Invalid parameters or value for tool '" ++ name ++ "': " ++ m)
             (some (.obj [("tool_name", .str name), ("type", .str "ValueError")]))
       | .connectionError m =>
           Response.error reqId (-32603)
             ("Connection error for tool '" ++ name ++ "': " ++ m)
             (some (.obj [("tool_name", .str name), ("type", .str "ConnectionError")]))
       | .otherError ty m =>
           Response.error reqId (-32603)
             ("Error during tool '" ++ name ++ "' execution: " ++ m)
             (some (.obj [("tool_name", .str name), ("type", .str ty)]))) ∧
    (∀ (id' : JValue) (c : Int) (msg : String) (d : Option JValue),
        mcp_handle_request tools (invokeReq reqId name args) = Response.error id' c msg d →
        0 < msg.length) := by
  have hred := mcp_invoke_reduces tools reqId name args tool hfind
  rw [hauth] at hred
  simp only [Bool.not_true, Bool.false_eq_true, if_false, ite_self] at hred
  constructor
  · rw [hred]
    cases tool.invoke args <;> rfl
  · intro id' c msg d heq
    rw [hred] at heq
    cases hinv : tool.invoke args <;> rw [hinv] at heq <;> unfold runInvoke at heq
    · exact absurd heq (fun h => Response.noConfusion h)
    · injection heq with h1 h2 h3 h4
      rw [← h3]
      exact length_append_pos_left _ _
        (length_append_pos_left _ _ (length_append_pos_left _ _ (by decide)))
    · injection heq with h1 h2 h3 h4
      rw [← h3]
      exact length_append_pos_left _ _
        (length_append_pos_left _ _ (length_append_pos_left _ _ (by decide)))
    · injection heq with h1 h2 h3 h4
      rw [← h3]
      exact length_append_pos_left _ _
        (length_append_pos_left _ _ (length_append_pos_left _ _ (by decide)))

/-- Witness for C3: a single tool whose invoke raises `ValueError`. -/
theorem C3_witness :
    lookupTool [("t", ToolModel.mk "t" "" (.obj []) [] (fun _ => true)
        (fun _ => .valueError "bad"))] "t"
      = some (ToolModel.mk "t" "" (.obj []) [] (fun _ => true)
        (fun _ => .valueError "bad")) ∧
    mcp_handle_request [("t", ToolModel.mk "t" "" (.obj []) [] (fun _ => true)
        (fun _ => .valueError "bad"))] (invokeReq (.num 1) "t" []) =
      Response.error (.num 1) (-32602)
        ("Invalid parameters or value for tool '" ++ "t" ++ "': " ++ "bad")
        (some (.obj [("tool_name", .str "t"), ("type", .str "ValueError")])) := by
  refine ⟨rfl, ?_⟩
  have h := C3_invoke_tool_error_mapping
    [("t", ToolModel.mk "t" "" (.obj []) [] (fun _ => true)
        (fun _ => .valueError "bad"))] (.num 1) "t"
    (ToolModel.mk "t" "" (.obj []) [] (fun _ => true) (fun _ => .valueError "bad"))
    [] rfl rfl
  exact h.1

/-- C4: a well-formed request whose method is none of the three served
methods is answered with -32601 and the request's id, and the same code
-32601 answers `get_tool_description` and `invoke_tool` when the named tool
is not among the initialized tools. -/
theorem C4_method_not_found (tools : ToolTable) (reqId : JValue) (m name : String)
    (args : List (String × JValue))
    (hm1 : m ≠ "list_tools") (hm2 : m ≠ "get_tool_description") (hm3 : m ≠ "invoke_tool")
    (hname : lookupTool tools name = none) :
    mcp_handle_request tools (methodReq reqId m) =
      Response.error reqId (-32601) ("Method '" ++ m ++ "' not found.") none ∧
    mcp_handle_request tools (gtdReq reqId name) =
      Response.error reqId (-32601) ("Tool '" ++ name ++ "' not found.") none ∧
    mcp_handle_request tools (invokeReq reqId name args) =
      Response.error reqId (-32601) ("Tool '" ++ name ++ "' not found.") none := by
  refine ⟨?_, ?_, ?_⟩
  · simp [mcp_handle_request, methodReq, dlookupD, dlookup, mcpDispatch, hm1, hm2, hm3,
      JSONRPC_METHOD_NOT_FOUND]
  · simp [mcp_handle_request, gtdReq, dlookupD, dlookup, mcpDispatch, hname,
      JSONRPC_METHOD_NOT_FOUND]
  · simp [mcp_handle_request, invokeReq, dlookupD, dlookup, mcpDispatch, hname,
      JSONRPC_METHOD_NOT_FOUND]

/-- Witness for C4 at the unknown method "shutdown" and unknown tool "ghost"
against an empty tool table. -/
theorem C4_witness :
    mcp_handle_request [] (methodReq (.num 7) "shutdown") =
      Response.error (.num 7) (-32601) ("Method '" ++ "shutdown" ++ "' not found.") none ∧
    mcp_handle_request [] (gtdReq (.num 7) "ghost") =
      Response.error (.num 7) (-32601) ("Tool '" ++ "ghost" ++ "' not found.") none ∧
    mcp_handle_request [] (invokeReq (.num 7) "ghost" []) =
      Response.error (.num 7) (-32601) ("Tool '" ++ "ghost" ++ "' not found.") none :=
  C4_method_not_found [] (.num 7) "shutdown" "ghost" []
    (by decide) (by decide) (by decide) rfl

/-- C9: a tool whose manifest carries a non-empty `auth_required` (with the
`is_authorized` implementation of `SQLiteSQLTool`) makes every MCP
`invoke_tool` request fail with a JSON-RPC error, because the MCP server
passes an empty verified-services list to `is_authorized`, which then
returns False; the response does not depend on the tool's `invoke` at all,
so `invoke` is never executed. -/
theorem C9_mcp_auth_always_fails (tools : ToolTable) (reqId : JValue)
    (name : String) (tool : ToolModel) (args : List (String × JValue))
    (hfind : lookupTool tools name = some tool)
    (har : tool.manifest_auth_required ≠ [])
    (himpl : tool.is_authorized = sqlite_is_authorized tool.manifest_auth_required) :
    (∀ ar verified : List String, ar ≠ [] → (∀ s ∈ ar, s ∉ verified) →
        sqlite_is_authorized ar verified = false) ∧
    mcp_handle_request tools (invokeReq reqId name args) =
      Response.error reqId (-32603) ("Tool '" ++ name ++ "' not authorized.")
        (some (.obj [("reason", .str "authorization_failed"),
                     ("required", .arr (tool.manifest_auth_required.map .str))])) ∧
    (∀ (tools2 : ToolTable) (tool2 : ToolModel),
        lookupTool tools2 name = some tool2 →
        tool2.manifest_auth_required = tool.manifest_auth_required →
        tool2.is_authorized = tool.is_authorized →
        mcp_handle_request tools2 (invokeReq reqId name args) =
          mcp_handle_request tools (invokeReq reqId name args)) := by
  have hgen : ∀ ar verified : List String, ar ≠ [] → (∀ s ∈ ar, s ∉ verified) →
      sqlite_is_authorized ar verified = false := by
    intro ar verified hne hnot
    unfold sqlite_is_authorized
    rw [if_neg (by simpa using hne)]
    rw [List.any_eq_false]
    intro s hs
    intro hcont
    exact hnot s hs (List.elem_iff.mp hcont)
  have hfalse : tool.is_authorized [] = false := by
    rw [himpl]
    exact hgen tool.manifest_auth_required [] har
      (fun s _ => List.not_mem_nil s)
  have hmain : mcp_handle_request tools (invokeReq reqId name args) =
      Response.error reqId (-32603) ("Tool '" ++ name ++ "' not authorized.")
        (some (.obj [("reason", .str "authorization_failed"),
                     ("required", .arr (tool.manifest_auth_required.map .str))])) := by
    rw [mcp_invoke_reduces tools reqId name args tool hfind, hfalse]
    rw [if_pos har]
    rfl
  refine ⟨hgen, hmain, ?_⟩
  intro tools2 tool2 hfind2 har2 himpl2
  rw [mcp_invoke_reduces tools2 reqId name args tool2 hfind2, himpl2, hfalse, har2,
      if_pos har, hmain]
  rfl

/-- Witness for C9: a tool requiring the service "google" with the
SQLite `is_authorized` implementation. -/
theorem C9_witness :
    mcp_handle_request
      [("t", ToolModel.mk "t" "" (.obj []) ["google"]
          (sqlite_is_authorized ["google"]) (fun _ => .ok (.num 0)))]
      (invokeReq (.num 2) "t" []) =
      Response.error (.num 2) (-32603) ("Tool '" ++ "t" ++ "' not authorized.")
        (some (.obj [("reason", .str "authorization_failed"),
                     ("required", .arr (["google"].map JValue.str))])) := by
  have h := C9_mcp_auth_always_fails
    [("t", ToolModel.mk "t" "" (.obj []) ["google"]
        (sqlite_is_authorized ["google"]) (fun _ => .ok (.num 0)))]
    (.num 2) "t"
    (ToolModel.mk "t" "" (.obj []) ["google"]
        (sqlite_is_authorized ["google"]) (fun _ => .ok (.num 0)))
    [] rfl (by simp) rfl
  exact h.2.1

/-- C5 (evaluation of the code at the failing input): a stdin line whose JSON
parses to a non-dict value (here the integer 42) is answered with code
-32603, because `request_obj.get("id")` raises `AttributeError` inside the
invalid-request branch and the generic `except Exception` arm takes over; a
dict that merely fails the structure check is answered with -32600 as the
spec says. -/
theorem C5_nonobject_internal_error_not_invalid_request :
    handle_line [] { raw := "42", parsed := some (.num 42) } =
      Response.error .null (-32603)
        ("Internal server error: '" ++ "int" ++ "' object has no attribute 'get'")
        none ∧
    ((-32603 : Int) ≠ (-32600 : Int)) ∧
    handle_line [] { raw := "\x7b\x22id\x22: 3\x7d", parsed := some (.obj [("id", .num 3)]) } =
      Response.error (.num 3) (-32600) "Invalid JSON-RPC 2.0 request structure." none :=
  ⟨rfl, by decide, rfl⟩

/-- C7 (evaluation of the code at the failing input): the loop does emit
exactly one response per non-empty stdin line, in request order, with empty
lines producing nothing — but each write appends the TWO characters
backslash and `n` (main.py line 668 reads `response_str + "\\n"` in the
source bytes, a Python literal for backslash + n), so the output stream is
not terminated by a newline character as the claim states: the suffix
written after the parse-error response to the line "nope" is `\` `n`, and
that two-character string differs from the one-character newline string. -/
theorem C7_output_not_newline_terminated :
    (∀ (tools : ToolTable) (lines : List StdinLine),
      mcp_serve tools lines
        = (lines.filter (fun l => !(pyStrip l.raw == ""))).map (handle_line tools) ∧
      serve_stdout tools lines
        = backslashNTerminated ((mcp_serve tools lines).map renderResponse)) ∧
    serve_stdout [] [{ raw := "nope", parsed := none }]
      = renderResponse
          (.error .null JSONRPC_PARSE_ERROR "Failed to parse JSON request." none)
        ++ "\\n" ∧
    ("\\n".data = ['\\', 'n'] ∧ "\n".data = ['\n'] ∧ ("\\n" : String) ≠ "\n") := by
  refine ⟨?_, ?_, by decide, by decide, by decide⟩
  · intro tools lines
    constructor
    · induction lines with
      | nil => rfl
      | cons l rest ih =>
        by_cases h : pyStrip l.raw = ""
        · simp [mcp_serve, List.filter_cons, h, ih]
        · simp [mcp_serve, List.filter_cons, h, ih]
    · induction lines with
      | nil => rfl
      | cons l rest ih =>
        by_cases h : pyStrip l.raw = ""
        · simp [mcp_serve, serve_stdout, h, ih]
        · simp [mcp_serve, serve_stdout, h, ih, backslashNTerminated, String.append_assoc]
  · have h1 : serve_stdout [] [{ raw := "nope", parsed := none }]
        = renderResponse (handle_line [] { raw := "nope", parsed := none }) ++ "\\n"
          ++ serve_stdout [] [] := by
      simp only [serve_stdout]
      rw [if_neg (by decide)]
    rw [h1]
    have h2 : serve_stdout ([] : ToolTable) [] = "" := rfl
    rw [h2, String.append_empty]
    rfl

end PyToolbox

namespace MCPHub

lemma find?_updateFirst (p : RegisteredToolRow → Bool)
    (f : RegisteredToolRow → RegisteredToolRow) (l : List RegisteredToolRow)
    (row : RegisteredToolRow) (hrow : l.find? p = some row)
    (hpf : p (f row) = true) :
    (updateFirst p f l).find? p = some (f row) := by
  induction l with
  | nil => simp at hrow
  | cons r rs ih =>
    by_cases hp : p r
    · rw [List.find?_cons_of_pos _ hp] at hrow
      injection hrow with hrow
      subst hrow
      unfold updateFirst
      rw [if_pos hp, List.find?_cons_of_pos _ hpf]
    · rw [List.find?_cons_of_neg _ hp] at hrow
      unfold updateFirst
      rw [if_neg hp, List.find?_cons_of_neg _ hp]
      exact ih hrow

/-- C1: `POST /api/v1/tools` creates a fresh row and answers 201 when no
(microservice_id, tool_name) match exists; when a match exists it updates
description, mcp_manifest, invocation_info and last_heartbeat_at in place,
answers 200, and both the stored row and the response keep the original
`registered_at`. -/
theorem C1_register_tool_upsert (db : HubDB) (req : ToolRegistrationRequest) (now : Nat) :
    (findTool db req.microservice_id req.tool_name = none →
      (register_tool db req now).2.1 = 201 ∧
      (register_tool db req now).1.rows = db.rows ++
        [⟨db.nextId, req.tool_name, req.microservice_id, req.description,
          req.invocation_info, req.mcp_manifest, now, some now⟩] ∧
      (register_tool db req now).2.2 =
        ⟨db.nextId, req.tool_name, req.microservice_id, now⟩) ∧
    (∀ row, findTool db req.microservice_id req.tool_name = some row →
      (register_tool db req now).2.1 = 200 ∧
      findTool (register_tool db req now).1 req.microservice_id req.tool_name =
        some ⟨row.id, row.tool_name, row.microservice_id, req.description,
              req.invocation_info, req.mcp_manifest, row.registered_at, some now⟩ ∧
      (register_tool db req now).2.2.registered_at = row.registered_at) := by
  constructor
  · intro h
    unfold register_tool
    rw [h]
    exact ⟨rfl, rfl, rfl⟩
  · intro row h
    have hstep : register_tool db req now =
        ({ db with
           rows := updateFirst (matchesKey req.microservice_id req.tool_name)
             (fun r => { r with
                description := req.description
                mcp_manifest := req.mcp_manifest
                invocation_info := req.invocation_info
                last_heartbeat_at := some now }) db.rows },
         200,
         ⟨row.id, row.tool_name, row.microservice_id, row.registered_at⟩) := by
      unfold register_tool
      rw [h]
    rw [hstep]
    have hp : matchesKey req.microservice_id req.tool_name row = true :=
      List.find?_some h
    exact ⟨rfl, find?_updateFirst _ _ db.rows row h hp, rfl⟩

/-- Witness for C1: registering into the empty table, then re-registering at
a later time. -/
theorem C1_witness :
    (findTool ⟨[], 0⟩ "ms1" "t1" = none ∧
      (register_tool ⟨[], 0⟩ ⟨"t1", "ms1", some "d", .obj [], ⟨"m", "", .obj []⟩⟩ 5).2.1
        = 201) ∧
    (findTool
        ⟨[⟨0, "t1", "ms1", some "d", .obj [], ⟨"m", "", .obj []⟩, 5, some 5⟩], 1⟩
        "ms1" "t1"
        = some ⟨0, "t1", "ms1", some "d", .obj [], ⟨"m", "", .obj []⟩, 5, some 5⟩ ∧
      (register_tool
        ⟨[⟨0, "t1", "ms1", some "d", .obj [], ⟨"m", "", .obj []⟩, 5, some 5⟩], 1⟩
        ⟨"t1", "ms1", some "d2", .obj [], ⟨"m", "", .obj []⟩⟩ 9).2.1 = 200 ∧
      (register_tool
        ⟨[⟨0, "t1", "ms1", some "d", .obj [], ⟨"m", "", .obj []⟩, 5, some 5⟩], 1⟩
        ⟨"t1", "ms1", some "d2", .obj [], ⟨"m", "", .obj []⟩⟩ 9).2.2.registered_at = 5) := by
  refine ⟨⟨rfl, ?_⟩, rfl, ?_, ?_⟩
  · exact ((C1_register_tool_upsert ⟨[], 0⟩
      ⟨"t1", "ms1", some "d", .obj [], ⟨"m", "", .obj []⟩⟩ 5).1 rfl).1
  · exact ((C1_register_tool_upsert
      ⟨[⟨0, "t1", "ms1", some "d", .obj [], ⟨"m", "", .obj []⟩, 5, some 5⟩], 1⟩
      ⟨"t1", "ms1", some "d2", .obj [], ⟨"m", "", .obj []⟩⟩ 9).2
      ⟨0, "t1", "ms1", some "d", .obj [], ⟨"m", "", .obj []⟩, 5, some 5⟩ rfl).1
  · exact ((C1_register_tool_upsert
      ⟨[⟨0, "t1", "ms1", some "d", .obj [], ⟨"m", "", .obj []⟩, 5, some 5⟩], 1⟩
      ⟨"t1", "ms1", some "d2", .obj [], ⟨"m", "", .obj []⟩⟩ 9).2
      ⟨0, "t1", "ms1", some "d", .obj [], ⟨"m", "", .obj []⟩, 5, some 5⟩ rfl).2.2

lemma hbLe_refl (x : Option Nat) : hbLe x x := by
  cases x <;> simp [hbLe]

lemma updateFirst_mem (p : RegisteredToolRow → Bool)
    (f : RegisteredToolRow → RegisteredToolRow) (l : List RegisteredToolRow)
    (r' : RegisteredToolRow) (h : r' ∈ updateFirst p f l) :
    r' ∈ l ∨ ∃ r, r ∈ l ∧ r' = f r := by
  induction l with
  | nil =>
    unfold updateFirst at h
    exact Or.inl h
  | cons r rs ih =>
    unfold updateFirst at h
    by_cases hp : p r
    · rw [if_pos hp] at h
      rcases List.mem_cons.mp h with he | h2
      · exact Or.inr ⟨r, List.mem_cons_self r rs, he⟩
      · exact Or.inl (List.mem_cons_of_mem r h2)
    · rw [if_neg hp] at h
      rcases List.mem_cons.mp h with he | h2
      · refine Or.inl ?_
        rw [he]
        exact List.mem_cons_self r rs
      · rcases ih h2 with h3 | ⟨r0, hr0, he0⟩
        · exact Or.inl (List.mem_cons_of_mem r h3)
        · exact Or.inr ⟨r0, List.mem_cons_of_mem r hr0, he0⟩

/-- C6: every mutating hub operation executed at a database time at least as
late as every stored heartbeat leaves each surviving row's
`last_heartbeat_at` no earlier than before (touching operations set it to
the current time), and a heartbeat for an unregistered pair answers 404 and
leaves the table unchanged. -/
theorem C6_heartbeat_monotonic (db : HubDB) (op : HubOp) (now : Nat)
    (hb : ∀ r ∈ db.rows, ∀ h, r.last_heartbeat_at = some h → h ≤ now)
    (hid : (db.rows.map (fun r => r.id)).Nodup)
    (hnext : ∀ r ∈ db.rows, r.id < db.nextId) :
    (∀ r ∈ db.rows, ∀ r' ∈ (hubStep db op now).rows, r'.id = r.id →
        hbLe r.last_heartbeat_at r'.last_heartbeat_at) ∧
    (∀ ms tn, findTool db ms tn = none →
        tool_heartbeat db ms tn now = (db, 404)) := by
  have hsame : ∀ r ∈ db.rows, ∀ r' ∈ db.rows, r'.id = r.id →
      hbLe r.last_heartbeat_at r'.last_heartbeat_at := by
    intro r hr r' hr' hide
    have he : r' = r := List.inj_on_of_nodup_map hid hr' hr hide
    rw [he]
    exact hbLe_refl _
  have hupd : ∀ (p : RegisteredToolRow → Bool)
      (f : RegisteredToolRow → RegisteredToolRow),
      (∀ r0, (f r0).id = r0.id) → (∀ r0, (f r0).last_heartbeat_at = some now) →
      ∀ r ∈ db.rows, ∀ r' ∈ updateFirst p f db.rows, r'.id = r.id →
      hbLe r.last_heartbeat_at r'.last_heartbeat_at := by
    intro p f hfid hfhb r hr r' hr' hide
    rcases updateFirst_mem p f db.rows r' hr' with hmem | ⟨r0, hr0, he0⟩
    · exact hsame r hr r' hmem hide
    · have hid0 : r0.id = r.id := by
        rw [← hfid r0, ← he0]
        exact hide
      have he : r0 = r := List.inj_on_of_nodup_map hid hr0 hr hid0
      rw [he0, he, hfhb r]
      cases hl : r.last_heartbeat_at with
      | none => trivial
      | some h0 => exact hb r hr h0 hl
  refine ⟨?_, ?_⟩
  · intro r hr r' hr' hide
    cases op with
    | register req =>
      cases hfind : findTool db req.microservice_id req.tool_name with
      | some row =>
        simp only [hubStep, register_tool, hfind] at hr'
        exact hupd (matchesKey req.microservice_id req.tool_name)
          (fun r0 => { r0 with description := req.description, mcp_manifest := req.mcp_manifest, invocation_info := req.invocation_info, last_heartbeat_at := some now })
          (fun _ => rfl) (fun _ => rfl) r hr r' hr' hide
      | none =>
        simp only [hubStep, register_tool, hfind] at hr'
        rcases List.mem_append.mp hr' with h2 | h2
        · exact hsame r hr r' h2 hide
        · have he : r' = ⟨db.nextId, req.tool_name, req.microservice_id,
              req.description, req.invocation_info, req.mcp_manifest, now, some now⟩ :=
            List.mem_singleton.mp h2
          exfalso
          have hlt := hnext r hr
          rw [he] at hide
          simp only at hide
          omega
    | heartbeat ms tn =>
      cases hfind : findTool db ms tn with
      | none =>
        simp only [hubStep, tool_heartbeat, hfind] at hr'
        exact hsame r hr r' hr' hide
      | some row =>
        simp only [hubStep, tool_heartbeat, hfind] at hr'
        exact hupd (matchesKey ms tn)
          (fun r0 => { r0 with last_heartbeat_at := some now })
          (fun _ => rfl) (fun _ => rfl) r hr r' hr' hide
    | delete tid =>
      cases hfind : db.rows.find? (fun r0 => r0.id == tid) with
      | none =>
        simp only [hubStep, delete_tool, hfind] at hr'
        exact hsame r hr r' hr' hide
      | some row =>
        simp only [hubStep, delete_tool, hfind] at hr'
        exact hsame r hr r' (List.mem_of_mem_filter hr') hide
  · intro ms tn h
    unfold tool_heartbeat
    rw [h]

/-- Witness for C6: a one-row table at time 5 (stored heartbeat 3); a
heartbeat for an unregistered tool name answers 404 and changes nothing. -/
theorem C6_witness :
    findTool (⟨[⟨0, "t", "ms", none, .obj [], ⟨"m", "", .obj []⟩, 1, some 3⟩], 1⟩ : HubDB)
        "ms" "missing" = none ∧
    tool_heartbeat (⟨[⟨0, "t", "ms", none, .obj [], ⟨"m", "", .obj []⟩, 1, some 3⟩], 1⟩ : HubDB)
        "ms" "missing" 5 =
      ((⟨[⟨0, "t", "ms", none, .obj [], ⟨"m", "", .obj []⟩, 1, some 3⟩], 1⟩ : HubDB), 404) := by
  refine ⟨rfl, ?_⟩
  have hb : ∀ r ∈ ([⟨0, "t", "ms", none, .obj [], ⟨"m", "", .obj []⟩, 1, some 3⟩] :
      List RegisteredToolRow), ∀ h, r.last_heartbeat_at = some h → h ≤ 5 := by
    intro r hr h0 he
    rw [List.mem_singleton] at hr
    subst hr
    injection he with he
    omega
  have hnext : ∀ r ∈ ([⟨0, "t", "ms", none, .obj [], ⟨"m", "", .obj []⟩, 1, some 3⟩] :
      List RegisteredToolRow), r.id < 1 := by
    intro r hr
    rw [List.mem_singleton] at hr
    subst hr
    decide
  exact (C6_heartbeat_monotonic
    ⟨[⟨0, "t", "ms", none, .obj [], ⟨"m", "", .obj []⟩, 1, some 3⟩], 1⟩
    (.heartbeat "ms" "missing") 5 hb (by simp) hnext).2 "ms" "missing" rfl

/-- C2 (evaluation of the code at the failing input): `GET /tools/{tool_id}`
(routes.py line 105) is declared before `GET /tools/lookup` (line 116), and
Starlette matches routes in declaration order, so a request for
`/api/v1/tools/lookup` is captured by the detail route; its `int`
path-parameter validation fails on the segment "lookup" and the service
answers 422.  The lookup handler itself — which the claim and the repo's own
tests (test_api_routes.py, tests 07/08) expect to answer — would return 200
with the ToolDetail for the registered pair. -/
theorem C2_lookup_route_shadowed :
    dispatchGET
      (⟨[⟨1, "lookup_tool", "ms_lookup", some "Lookup desc", .obj [],
         ⟨"lookup_m", "d_lookup", .obj []⟩, 1, some 1⟩], 2⟩ : HubDB)
      ["api", "v1", "tools", "lookup"]
      { microservice_id := some "ms_lookup", tool_name := some "lookup_tool" }
      = ⟨422, .validationError⟩ ∧
    get_tool_by_microservice_and_name
      (⟨[⟨1, "lookup_tool", "ms_lookup", some "Lookup desc", .obj [],
         ⟨"lookup_m", "d_lookup", .obj []⟩, 1, some 1⟩], 2⟩ : HubDB)
      "ms_lookup" "lookup_tool"
      = ⟨200, .detail ⟨1, "lookup_tool", "ms_lookup", some "Lookup desc", .obj [],
          ⟨"lookup_m", "d_lookup", .obj []⟩, 1, some 1⟩⟩ :=
  ⟨rfl, rfl⟩

end MCPHub
